import Mathlib

/-!
Shallow embedding of the capability composition and bootstrap core in
src/src-tauri/src/main.rs: the `main` function builds a Tauri builder,
registers the dialog, fs and opener plugins unconditionally, registers the
updater plugin under `cfg(not(any(target_os = "android", target_os = "ios")))`,
generates the runtime context, invokes the blocking `run` entry point, and
converts a run error into a fatal panic via `.expect("error while running
tauri application")`.
-/

namespace Bootstrap

/-- Target platform classification: the `target_os` values the cfg attribute
on the updater registration can distinguish, plus the desktop targets. -/
inductive TargetOS
  | android
  | ios
  | windows
  | macos
  | linux
  deriving DecidableEq, Repr

/-- The compile-time predicate guarding the updater registration:
`cfg(not(any(target_os = "android", target_os = "ios")))`. -/
def updaterCfg (os : TargetOS) : Bool :=
  !(os == TargetOS.android || os == TargetOS.ios)

/-- The capability modules registered by `main`: `tauri_plugin_dialog`,
`tauri_plugin_fs`, `tauri_plugin_opener`, `tauri_plugin_updater`. -/
inductive Plugin
  | dialog
  | fs
  | opener
  | updater
  deriving DecidableEq, Repr

/-- The Tauri builder as seen by the composer: an ordered sequence of plugin
registrations (the CompositionSet). -/
structure Builder where
  plugins : List Plugin
  deriving DecidableEq, Repr

/-- `tauri::Builder::default()`: no plugins registered yet. -/
def Builder.default : Builder := ⟨[]⟩

/-- `Builder::plugin`: appends one plugin registration, preserving order. -/
def Builder.plugin (b : Builder) (p : Plugin) : Builder :=
  ⟨b.plugins ++ [p]⟩

/-- The runtime context produced by `tauri::generate_context!()`: an opaque
bundle generated once from static build metadata. -/
inductive Context
  | generated
  deriving DecidableEq, Repr

/-- `tauri::generate_context!()`. -/
def generateContext : Context := Context.generated

/-- The composition performed by lines 5-13 of main.rs: seed the default
builder, register dialog, fs, opener, then under the cfg predicate reassign
`builder = builder.plugin(updater)`. -/
def composeSet (os : TargetOS) : Builder :=
  let builder :=
    ((Builder.default.plugin Plugin.dialog).plugin Plugin.fs).plugin Plugin.opener
  if updaterCfg os then builder.plugin Plugin.updater else builder

/-- The fixed literal passed to `.expect(...)` on line 17 of main.rs. -/
def expectMsg : String := "error while running tauri application"

/-- `Result::expect` specialised to the `run` result: on `Ok` it produces no
panic message, on `Err e` it panics with the message followed by the error. -/
def expectResult (r : Except String Unit) (msg : String) : Option String :=
  match r with
  | Except.ok _ => none
  | Except.error e => some (msg ++ ": " ++ e)

/-- Observable behaviour of the host runtime's blocking `run` entry point:
on success it owns the event loop and never returns; on startup failure it
returns `Err` with a description. -/
inductive RunBehavior
  | blocks
  | returnsErr (e : String)

/-- A host runtime: its `run` behaviour as a function of the composition set
and the runtime context it is handed. -/
def HostRuntime : Type := Builder → Context → RunBehavior

/-- Events observable during one execution of `main`. -/
inductive Event
  | register (p : Plugin)
  | cfgEval (v : Bool)
  | handOff (set : List Plugin) (ctx : Context)
  | runInvoked
  | emitDiagnostic (s : String)
  | exitProcess (code : Nat)
  deriving DecidableEq, Repr

/-- Process-level state surrounding the composer: command-line arguments,
environment variables, persisted state, and the stderr stream. -/
structure ProcState where
  cmdArgs : List String
  envVars : List (String × String)
  persisted : List (String × String)
  stderr : List String
  deriving DecidableEq, Repr

/-- Terminal outcome of one execution of `main`. -/
inductive Outcome
  | blockedInRun
  | exited (code : Nat)
  | returned
  deriving DecidableEq, Repr

/-- The events emitted while composing, in source order: three unconditional
registrations, the cfg evaluation, and the conditional updater registration. -/
def composeEvents (os : TargetOS) : List Event :=
  [Event.register Plugin.dialog, Event.register Plugin.fs,
   Event.register Plugin.opener, Event.cfgEval (updaterCfg os)] ++
    (if updaterCfg os then [Event.register Plugin.updater] else [])

/-- One execution of `main` (lines 4-18 of main.rs) against a host runtime,
beginning in process state `s`: compose the set, generate the context, hand
both to `run`, and on an error apply `expect`, which panics (emitting the
diagnostic on stderr and exiting with the non-zero panic status 101). The
returned triple is the outcome, the final process state and the event trace. -/
def mainExec (os : TargetOS) (host : HostRuntime) (s : ProcState) :
    Outcome × ProcState × List Event :=
  let builder := composeSet os
  let ctx := generateContext
  let pre := composeEvents os ++ [Event.handOff builder.plugins ctx, Event.runInvoked]
  match host builder ctx with
  | RunBehavior.blocks => (Outcome.blockedInRun, s, pre)
  | RunBehavior.returnsErr e =>
    match expectResult (Except.error e) expectMsg with
    | some m =>
        (Outcome.exited 101,
         { s with stderr := s.stderr ++ [m] },
         pre ++ [Event.emitDiagnostic m, Event.exitProcess 101])
    | none => (Outcome.returned, s, pre)

/-- The plugin registrations recorded in a trace, in order. -/
def registrations (tr : List Event) : List Plugin :=
  tr.filterMap fun e =>
    match e with
    | Event.register p => some p
    | _ => none

/-- The composition sets (with contexts) handed to the host in a trace. -/
def handedSets (tr : List Event) : List (List Plugin × Context) :=
  tr.filterMap fun e =>
    match e with
    | Event.handOff l c => some (l, c)
    | _ => none

/-- Whether an event is an evaluation of the platform predicate. -/
def isCfgEval : Event → Bool := fun e =>
  match e with
  | Event.cfgEval _ => true
  | _ => false

/-- Whether an event is a plugin registration. -/
def isRegister : Event → Bool := fun e =>
  match e with
  | Event.register _ => true
  | _ => false

/-- Whether an event is a hand-off of the composition set. -/
def isHandOff : Event → Bool := fun e =>
  match e with
  | Event.handOff _ _ => true
  | _ => false

/-- Unfolding of `mainExec` when the host's run blocks (success). -/
theorem mainExec_blocks (os : TargetOS) (host : HostRuntime) (s : ProcState)
    (h : host (composeSet os) generateContext = RunBehavior.blocks) :
    mainExec os host s =
      (Outcome.blockedInRun, s,
       composeEvents os ++
         [Event.handOff (composeSet os).plugins generateContext, Event.runInvoked]) := by
  simp [mainExec, h]

/-- Unfolding of `mainExec` when the host's run returns an error. -/
theorem mainExec_err (os : TargetOS) (host : HostRuntime) (s : ProcState) (e : String)
    (h : host (composeSet os) generateContext = RunBehavior.returnsErr e) :
    mainExec os host s =
      (Outcome.exited 101,
       { s with stderr := s.stderr ++ [expectMsg ++ ": " ++ e] },
       composeEvents os ++
         [Event.handOff (composeSet os).plugins generateContext, Event.runInvoked] ++
         [Event.emitDiagnostic (expectMsg ++ ": " ++ e), Event.exitProcess 101]) := by
  simp [mainExec, h, expectResult]

/-- Claim C1: the updater module is in the final CompositionSet iff the
target is in the desktop family (neither android nor ios), and on excluded
platforms no updater registration of any kind is present. -/
theorem updater_iff_desktop (os : TargetOS) :
    (Plugin.updater ∈ (composeSet os).plugins ↔
      (os ≠ TargetOS.android ∧ os ≠ TargetOS.ios)) ∧
    (composeSet os).plugins.count Plugin.updater =
      (if os = TargetOS.android ∨ os = TargetOS.ios then 0 else 1) := by
  cases os <;> decide

/-- The registration part of any trace: dialog, fs, opener, then updater when
the cfg predicate holds. -/
theorem registrations_trace (os : TargetOS) (host : HostRuntime) (s : ProcState) :
    registrations (mainExec os host s).2.2 =
      [Plugin.dialog, Plugin.fs, Plugin.opener] ++
        (if updaterCfg os then [Plugin.updater] else []) := by
  cases hb : host (composeSet os) generateContext with
  | blocks =>
      rw [mainExec_blocks os host s hb]
      cases hc : updaterCfg os <;>
        simp [registrations, composeEvents, hc, List.filterMap_append]
  | returnsErr e =>
      rw [mainExec_err os host s e hb]
      cases hc : updaterCfg os <;>
        simp [registrations, composeEvents, hc, List.filterMap_append]

/-- Claim C2: capability modules are registered in the fixed order dialog,
filesystem, opener, then updater when applicable, and this order is identical
across repeated bootstraps with identical platform classification. -/
theorem registration_order_fixed (os : TargetOS) (host₁ host₂ : HostRuntime)
    (s₁ s₂ : ProcState) :
    registrations (mainExec os host₁ s₁).2.2 =
      [Plugin.dialog, Plugin.fs, Plugin.opener] ++
        (if updaterCfg os then [Plugin.updater] else []) ∧
    registrations (mainExec os host₁ s₁).2.2 =
      registrations (mainExec os host₂ s₂).2.2 :=
  ⟨registrations_trace os host₁ s₁,
   (registrations_trace os host₁ s₁).trans (registrations_trace os host₂ s₂).symm⟩

/-- A host runtime stub that always reports a startup failure. -/
def hostFailing : HostRuntime := fun _ _ => RunBehavior.returnsErr "boom"

/-- A host runtime stub that always succeeds (blocks in the event loop). -/
def hostBlocking : HostRuntime := fun _ _ => RunBehavior.blocks

/-- An empty ambient process state. -/
def sInit : ProcState := ⟨[], [], [], []⟩

/-- A non-trivial ambient process state, with arguments, environment
variables, persisted state and prior stderr content. -/
def sAlt : ProcState :=
  ⟨["--flag"], [("HOME", "/root")], [("key", "value")], ["earlier line"]⟩

/-- Claim C3: when the host's run entry point reports a startup failure,
bootstrap exits with the non-zero status 101, emits one non-empty diagnostic
on stderr, and the trace ends right there: run was invoked exactly once and
nothing follows the diagnostic and the exit. -/
theorem startup_failure_fatal (os : TargetOS) (host : HostRuntime) (s : ProcState)
    (e : String) (h : host (composeSet os) generateContext = RunBehavior.returnsErr e) :
    (mainExec os host s).1 = Outcome.exited 101 ∧ (101 : Nat) ≠ 0 ∧
    (∃ m, (mainExec os host s).2.1.stderr = s.stderr ++ [m] ∧ 0 < m.length) ∧
    (mainExec os host s).2.2.count Event.runInvoked = 1 ∧
    (∃ pre, (mainExec os host s).2.2 =
      pre ++ [Event.emitDiagnostic (expectMsg ++ ": " ++ e), Event.exitProcess 101]) := by
  rw [mainExec_err os host s e h]
  refine ⟨rfl, by decide, ⟨expectMsg ++ ": " ++ e, rfl, ?_⟩, ?_, ?_⟩
  · have hlen : (expectMsg ++ ": " ++ e).length =
        expectMsg.length + ": ".length + e.length := by
      simp [String.length_append]
    have hm : expectMsg.length = 37 := by decide
    omega
  · cases hc : updaterCfg os <;> simp [composeEvents, hc, List.count_append]
  · exact ⟨composeEvents os ++
      [Event.handOff (composeSet os).plugins generateContext, Event.runInvoked], by simp⟩

/-- Witness for C3 at a concrete platform, host stub and state. -/
theorem startup_failure_fatal_witness :
    hostFailing (composeSet TargetOS.linux) generateContext =
      RunBehavior.returnsErr "boom" ∧
    ((mainExec TargetOS.linux hostFailing sInit).1 = Outcome.exited 101 ∧
     (101 : Nat) ≠ 0 ∧
     (∃ m, (mainExec TargetOS.linux hostFailing sInit).2.1.stderr =
        sInit.stderr ++ [m] ∧ 0 < m.length) ∧
     (mainExec TargetOS.linux hostFailing sInit).2.2.count Event.runInvoked = 1 ∧
     (∃ pre, (mainExec TargetOS.linux hostFailing sInit).2.2 =
       pre ++ [Event.emitDiagnostic (expectMsg ++ ": " ++ "boom"),
               Event.exitProcess 101])) :=
  ⟨rfl, startup_failure_fatal TargetOS.linux hostFailing sInit "boom" rfl⟩

/-- Claim C4: bootstrap never returns normally to its caller: every execution
either stays blocked inside the host's run call (and a successful run never
leads to a non-zero exit) or terminates the process with a non-zero status. -/
theorem bootstrap_diverges (os : TargetOS) (host : HostRuntime) (s : ProcState) :
    (mainExec os host s).1 ≠ Outcome.returned ∧
    ((mainExec os host s).1 = Outcome.blockedInRun ∨
      ∃ c, (mainExec os host s).1 = Outcome.exited c ∧ c ≠ 0) ∧
    (host (composeSet os) generateContext = RunBehavior.blocks →
      (mainExec os host s).1 = Outcome.blockedInRun) := by
  cases hb : host (composeSet os) generateContext with
  | blocks =>
      rw [mainExec_blocks os host s hb]
      exact ⟨by simp, Or.inl rfl, fun _ => rfl⟩
  | returnsErr e =>
      rw [mainExec_err os host s e hb]
      exact ⟨by simp, Or.inr ⟨101, rfl, by decide⟩, fun hc => by cases hc⟩

/-- Witness for C4 at a concrete platform, host stub and state. -/
theorem bootstrap_diverges_witness :
    (mainExec TargetOS.macos hostBlocking sAlt).1 ≠ Outcome.returned ∧
    ((mainExec TargetOS.macos hostBlocking sAlt).1 = Outcome.blockedInRun ∨
      ∃ c, (mainExec TargetOS.macos hostBlocking sAlt).1 = Outcome.exited c ∧ c ≠ 0) ∧
    (hostBlocking (composeSet TargetOS.macos) generateContext = RunBehavior.blocks →
      (mainExec TargetOS.macos hostBlocking sAlt).1 = Outcome.blockedInRun) :=
  bootstrap_diverges TargetOS.macos hostBlocking sAlt

/-- Claim C5: the host runtime's run entry point is invoked exactly once per
execution, hence at most once; in particular no second invocation follows a
failure. -/
theorem run_invoked_at_most_once (os : TargetOS) (host : HostRuntime) (s : ProcState) :
    (mainExec os host s).2.2.count Event.runInvoked = 1 ∧
    (mainExec os host s).2.2.count Event.runInvoked ≤ 1 := by
  have h1 : (mainExec os host s).2.2.count Event.runInvoked = 1 := by
    cases hb : host (composeSet os) generateContext with
    | blocks =>
        rw [mainExec_blocks os host s hb]
        cases hc : updaterCfg os <;> simp [composeEvents, hc, List.count_append]
    | returnsErr e =>
        rw [mainExec_err os host s e hb]
        cases hc : updaterCfg os <;> simp [composeEvents, hc, List.count_append]
  exact ⟨h1, le_of_eq h1⟩

/-- Claim C6: the platform predicate is the static function `updaterCfg` of
the target alone; within any execution it is evaluated exactly once, that
evaluation occurs before the hand-off of the finalized CompositionSet, and
after the hand-off the trace contains no further registration, no further
predicate evaluation and no further hand-off. -/
theorem predicate_static_once_before_handoff (os : TargetOS) (host : HostRuntime)
    (s : ProcState) :
    (mainExec os host s).2.2.countP isCfgEval = 1 ∧
    Event.cfgEval (updaterCfg os) ∈ (mainExec os host s).2.2 ∧
    ∃ pre post,
      (mainExec os host s).2.2 =
        pre ++ [Event.handOff (composeSet os).plugins generateContext] ++ post ∧
      pre.countP isCfgEval = 1 ∧
      post.countP isCfgEval = 0 ∧ post.countP isRegister = 0 ∧
      post.countP isHandOff = 0 := by
  cases hb : host (composeSet os) generateContext with
  | blocks =>
      rw [mainExec_blocks os host s hb]
      refine ⟨?_, ?_, composeEvents os, [Event.runInvoked], by simp, ?_, by simp [isCfgEval], by simp [isRegister], by simp [isHandOff]⟩ <;>
        cases hc : updaterCfg os <;>
          simp [composeEvents, hc, isCfgEval, List.countP_append, List.countP_cons]
  | returnsErr e =>
      rw [mainExec_err os host s e hb]
      refine ⟨?_, ?_,
        composeEvents os,
        [Event.runInvoked, Event.emitDiagnostic (expectMsg ++ ": " ++ e),
         Event.exitProcess 101],
        by simp, ?_, by simp [isCfgEval], by simp [isRegister], by simp [isHandOff]⟩ <;>
        cases hc : updaterCfg os <;>
          simp [composeEvents, hc, isCfgEval, List.countP_append, List.countP_cons]

/-- Claim C7: the composer reads no ambient process input (outcome and trace
are identical for any two ambient states) and writes nothing to arguments,
environment or persisted state; stderr is only ever extended, and on a
successful run it is not touched at all. -/
theorem composer_no_io (os : TargetOS) (host : HostRuntime) (s₁ s₂ : ProcState) :
    (mainExec os host s₁).1 = (mainExec os host s₂).1 ∧
    (mainExec os host s₁).2.2 = (mainExec os host s₂).2.2 ∧
    (mainExec os host s₁).2.1.cmdArgs = s₁.cmdArgs ∧
    (mainExec os host s₁).2.1.envVars = s₁.envVars ∧
    (mainExec os host s₁).2.1.persisted = s₁.persisted ∧
    ∃ extra, (mainExec os host s₁).2.1.stderr = s₁.stderr ++ extra ∧
      (host (composeSet os) generateContext = RunBehavior.blocks → extra = []) := by
  cases hb : host (composeSet os) generateContext with
  | blocks =>
      rw [mainExec_blocks os host s₁ hb, mainExec_blocks os host s₂ hb]
      exact ⟨rfl, rfl, rfl, rfl, rfl, [], by simp, fun _ => rfl⟩
  | returnsErr e =>
      rw [mainExec_err os host s₁ e hb, mainExec_err os host s₂ e hb]
      exact ⟨rfl, rfl, rfl, rfl, rfl, [expectMsg ++ ": " ++ e], rfl,
        fun hc => by cases hc⟩

/-- Witness for C7 at a concrete platform, host stub and two distinct states. -/
theorem composer_no_io_witness :
    (mainExec TargetOS.windows hostBlocking sInit).1 =
      (mainExec TargetOS.windows hostBlocking sAlt).1 ∧
    (mainExec TargetOS.windows hostBlocking sInit).2.2 =
      (mainExec TargetOS.windows hostBlocking sAlt).2.2 ∧
    (mainExec TargetOS.windows hostBlocking sInit).2.1.cmdArgs = sInit.cmdArgs ∧
    (mainExec TargetOS.windows hostBlocking sInit).2.1.envVars = sInit.envVars ∧
    (mainExec TargetOS.windows hostBlocking sInit).2.1.persisted = sInit.persisted ∧
    ∃ extra, (mainExec TargetOS.windows hostBlocking sInit).2.1.stderr =
        sInit.stderr ++ extra ∧
      (hostBlocking (composeSet TargetOS.windows) generateContext =
          RunBehavior.blocks → extra = []) :=
  composer_no_io TargetOS.windows hostBlocking sInit sAlt

/-- Claim C8: when the run result is `Ok`, the `expect` on it produces no
panic: the fatal-termination branch is unreachable in that case. -/
theorem run_ok_no_panic (r : Except String Unit) (h : r = Except.ok ()) :
    expectResult r expectMsg = none := by
  rw [h]
  rfl

/-- Witness for C8 at the concrete `Ok` result. -/
theorem run_ok_no_panic_witness :
    expectResult (Except.ok ()) expectMsg = none :=
  run_ok_no_panic (Except.ok ()) rfl

/-- Claim C9: the composition is deterministic with respect to runtime
inputs: in every execution exactly one hand-off occurs, it hands the host the
composition set determined by the target platform alone together with the
statically generated context, and it is identical across any two executions
with the same platform, whatever the ambient state or host behaviour. -/
theorem deterministic_composition (os : TargetOS) (host₁ host₂ : HostRuntime)
    (s₁ s₂ : ProcState) :
    handedSets (mainExec os host₁ s₁).2.2 =
      [((composeSet os).plugins, generateContext)] ∧
    handedSets (mainExec os host₁ s₁).2.2 =
      handedSets (mainExec os host₂ s₂).2.2 := by
  have key : ∀ (host : HostRuntime) (s : ProcState),
      handedSets (mainExec os host s).2.2 =
        [((composeSet os).plugins, generateContext)] := by
    intro host s
    cases hb : host (composeSet os) generateContext with
    | blocks =>
        rw [mainExec_blocks os host s hb]
        cases hc : updaterCfg os <;>
          simp [handedSets, composeEvents, hc, List.filterMap_append]
    | returnsErr e =>
        rw [mainExec_err os host s e hb]
        cases hc : updaterCfg os <;>
          simp [handedSets, composeEvents, hc, List.filterMap_append]
  exact ⟨key host₁ s₁, (key host₁ s₁).trans (key host₂ s₂).symm⟩

/-- Claim C10: every failure diagnostic is the fixed literal
"error while running tauri application" followed by the host's error
description, hence non-empty. -/
theorem diagnostic_has_fixed_literal (os : TargetOS) (host : HostRuntime)
    (s : ProcState) (e : String)
    (h : host (composeSet os) generateContext = RunBehavior.returnsErr e) :
    ∃ m, Event.emitDiagnostic m ∈ (mainExec os host s).2.2 ∧
      (mainExec os host s).2.1.stderr = s.stderr ++ [m] ∧
      m = expectMsg ++ ": " ++ e ∧
      expectMsg = "error while running tauri application" ∧
      0 < m.length := by
  rw [mainExec_err os host s e h]
  refine ⟨expectMsg ++ ": " ++ e, by simp, rfl, rfl, rfl, ?_⟩
  have hlen : (expectMsg ++ ": " ++ e).length =
      expectMsg.length + ": ".length + e.length := by
    simp [String.length_append]
  have hm : expectMsg.length = 37 := by decide
  omega

/-- Witness for C10 at a concrete platform, host stub and state. -/
theorem diagnostic_has_fixed_literal_witness :
    hostFailing (composeSet TargetOS.ios) generateContext =
      RunBehavior.returnsErr "boom" ∧
    ∃ m, Event.emitDiagnostic m ∈ (mainExec TargetOS.ios hostFailing sAlt).2.2 ∧
      (mainExec TargetOS.ios hostFailing sAlt).2.1.stderr = sAlt.stderr ++ [m] ∧
      m = expectMsg ++ ": " ++ "boom" ∧
      expectMsg = "error while running tauri application" ∧
      0 < m.length :=
  ⟨rfl, diagnostic_has_fixed_literal TargetOS.ios hostFailing sAlt "boom" rfl⟩

end Bootstrap
